import Mathlib

/-
Verification development for the db_unified repository.

The repository contains two near-duplicate implementations of the same
class, src/db_unified.py and src/app.py.  The constructor of the app.py
variant reads the attribute db_type before ever assigning it, so every
construction of that variant raises immediately; db_unified.py is the
implementation that can actually run and is the one embedded here.
Python values that can appear in rows and configuration entries are
modelled by the inductive type PyVal; Python exceptions by PyError; the
mutable object state (connection handle, cursor, pending result rows,
and instrumentation counters for driver-level fetch and commit calls)
by the structure DBState.  Driver behaviour that is out of scope for
the core (the wire protocol) is modelled by the rows and column
description the backend would hand back on execute.
-/

namespace DB

/-- Python values as they occur in rows, parameters and configuration
entries: None, strings, integers, lists, tuples and string-keyed
mappings (the shape of named-row results). -/
inductive PyVal where
  | pnone : PyVal
  | pstr : String → PyVal
  | pint : Int → PyVal
  | plist : List PyVal → PyVal
  | ptuple : List PyVal → PyVal
  | pdict : List (String × PyVal) → PyVal
deriving Repr

/-- Python code that reads the head of a list we have proved non-empty
is modelled with the None default. -/
instance : Inhabited PyVal := ⟨PyVal.pnone⟩

open PyVal

/-- Python exceptions raised by the embedded code paths. -/
inductive PyError where
  | attributeError : PyError
  | attributeErrorCursor : PyError
  | interfaceError : PyError
  | valueErrorFetchType : PyError
  | valueErrorWrongFetch : PyError
  | valueErrorDbType : PyError
  | valueErrorDbName : PyError
  | valueErrorHost : PyError
  | valueErrorPort : PyError
  | valueErrorUser : PyError
  | valueErrorSslmode : PyError
  | valueErrorOptions : PyError
  | typeError : PyError
  | indexError : PyError
  | keyError : PyError
  | nameError : PyError
deriving Repr, DecidableEq

/-- Test for the Python None value (the comparison item == None). -/
def isNoneV : PyVal → Bool
  | pnone => true
  | _ => false

/-- Test for the Python check type(x) == list (exact list type only;
tuples, strings and mappings do not pass). -/
def isListV : PyVal → Bool
  | plist _ => true
  | _ => false

/-- Test for the Python comparison value == [] (only an empty list is
equal to the empty list; an empty tuple or mapping is not). -/
def isEmptyListV : PyVal → Bool
  | plist [] => true
  | _ => false

/-- Test for the Python comparison v == s for a string literal s. -/
def isStrV (v : PyVal) (s : String) : Bool :=
  match v with
  | pstr t => t = s
  | _ => false

/-- One element of the level-1 pass of replace_none_list: a None entry
becomes the empty string, every other entry is untouched. -/
def replaceNoneElem (v : PyVal) : PyVal :=
  if isNoneV v then pstr "" else v

/-- The level-2 per-row pass of replace_none_list
(src/db_unified.py lines 308-311): the row is enumerated and every
None element is overwritten with the empty string.  Enumerating a list
succeeds and the assignment works; enumerating a string or a mapping
yields characters resp. keys, which are never None, so nothing is
written; enumerating a tuple works but writing into a tuple raises
TypeError, and enumerating None or an integer raises TypeError. -/
def replaceRow : PyVal → Except PyError PyVal
  | plist ys => .ok (plist (ys.map replaceNoneElem))
  | ptuple ys => if ys.any isNoneV then .error .typeError else .ok (ptuple ys)
  | pstr s => .ok (pstr s)
  | pdict es => .ok (pdict es)
  | pnone => .error .typeError
  | pint _ => .error .typeError

/-- Left-to-right effectful map over a list, stopping at the first
error, mirroring a Python for-loop over the sequence. -/
def mapMEx (f : PyVal → Except PyError PyVal) : List PyVal → Except PyError (List PyVal)
  | [] => .ok []
  | x :: xs =>
    match f x with
    | .error e => .error e
    | .ok y =>
      match mapMEx f xs with
      | .error e => .error e
      | .ok ys => .ok (y :: ys)

/-- Embedding of replace_none_list (src/db_unified.py lines 297-313).
The mode is chosen from the type of the first element: level 1 (flat)
when liste[0] is not a list, level 2 (row-wise) when it is.  An empty
input raises IndexError at the liste[0] inspection. -/
def replace_none_list (liste : List PyVal) : Except PyError (List PyVal) :=
  match liste with
  | [] => .error .indexError
  | x :: _ =>
    if isListV x then mapMEx replaceRow liste
    else .ok (liste.map replaceNoneElem)

/-- Substring test over lists of characters, used to embed the Python
containment test pat in s. -/
def listContains (pat : List Char) : List Char → Bool
  | [] => pat.isEmpty
  | c :: rest => pat.isPrefixOf (c :: rest) || listContains pat rest

/-- The uppercased text of a statement as its character sequence: the
Python expression query.upper(). -/
def pyUpper (s : String) : List Char :=
  s.toList.map Char.toUpper

/-- Embedding of the Python containment test pat in query.upper(). -/
def containsInUpper (query pat : String) : Bool :=
  listContains pat.toList (pyUpper query)

/-- The db_type values for which the constructor imports a driver and
connect has a branch (src/db_unified.py lines 43-62 and 131-145). -/
def knownDbType (t : String) : Bool :=
  t = "postgresql" || t = "mariadb" || t = "mysql" || t = "sqlserver" || t = "sqlite"

/-- The mutable state of a db_unified object together with
instrumentation of the driver calls the object makes.  The db field
mirrors self.db: Option.none when the attribute is None, some true
when it holds an open native connection, some false when that
connection has been closed.  cursor mirrors self.cursor as the
identifier of the most recently created native cursor; openCursors
lists the identifiers of native cursors created and not yet closed;
nextId feeds fresh identifiers.  rows is the result buffer of the
current cursor, description its column metadata.  executed records the
statement texts handed to the driver, fetches counts driver-level
fetchone/fetchall calls, commits counts driver-level commit calls. -/
structure DBState where
  db_type : String
  db : Option Bool
  cursor : Option Nat
  openCursors : List Nat
  nextId : Nat
  rows : List PyVal
  description : List String
  executed : List String
  fetches : Nat
  commits : Nat
deriving Repr

/-- Embedding of connect (src/db_unified.py lines 126-150): for a known
db_type the driver returns a fresh open native handle which is stored
in self.db; for any other db_type no branch runs and self.db is left
as it was.  The returned boolean is the final test self.db is None. -/
def connect (st : DBState) : Bool × DBState :=
  let st1 := if knownDbType st.db_type then { st with db := some true } else st
  (st1.db.isSome, st1)

/-- Embedding of disconnect (src/db_unified.py lines 152-154):
self.db.close() raises AttributeError when self.db is None, otherwise
the native connection is closed (self.db keeps pointing at it). -/
def disconnect (st : DBState) : Except PyError Unit × DBState :=
  match st.db with
  | Option.none => (.error .attributeError, st)
  | some _ => (.ok (), { st with db := some false })

/-- Embedding of open (src/db_unified.py lines 156-182).  With
auto_connect the method first connects and returns false if that
fails.  It then best-effort closes any pre-existing cursor, swallowing
the failure (self.cursor may be None).  An invalid fetch_type raises
ValueError.  Otherwise a new cursor is created from self.db (an absent
handle raises AttributeError, a closed one raises the driver's
interface error) and the method reports whether self.cursor is set. -/
def openCur (st0 : DBState) (auto_connect : Bool) (fetch_type : String) :
    Except PyError Bool × DBState :=
  let (connected, st1) := if auto_connect then connect st0 else (true, st0)
  if auto_connect && !connected then (.ok false, st1)
  else
    let st2 :=
      match st1.cursor with
      | some c => { st1 with openCursors := st1.openCursors.erase c }
      | Option.none => st1
    if !(fetch_type = "tuple" || fetch_type = "list" || fetch_type = "dict" ||
         fetch_type = "with_names") then
      (.error .valueErrorFetchType, st2)
    else
      match st2.db with
      | Option.none => (.error .attributeError, st2)
      | some false => (.error .interfaceError, st2)
      | some true =>
        let c := st2.nextId
        (.ok true, { st2 with cursor := some c, openCursors := st2.openCursors ++ [c],
                              nextId := c + 1, rows := [] })

/-- Embedding of commit (src/db_unified.py lines 184-186). -/
def commitOp (st : DBState) : Except PyError Unit × DBState :=
  match st.db with
  | Option.none => (.error .attributeError, st)
  | some false => (.error .interfaceError, st)
  | some true => (.ok (), { st with commits := st.commits + 1 })

/-- Embedding of close (src/db_unified.py lines 188-195): commit first
when requested, then close the cursor (closing an already closed
native cursor is a no-op for the drivers involved; a None cursor
raises AttributeError), then disconnect iff auto_connect. -/
def close (st0 : DBState) (commit : Bool) (auto_connect : Bool) :
    Except PyError Unit × DBState :=
  let (r1, st1) := if commit then commitOp st0 else (.ok (), st0)
  match r1 with
  | .error e => (.error e, st1)
  | .ok _ =>
    match st1.cursor with
    | Option.none => (.error .attributeError, st1)
    | some c =>
      let st2 := { st1 with openCursors := st1.openCursors.erase c }
      if auto_connect then disconnect st2 else (.ok (), st2)

/-- Embedding of execute (src/db_unified.py lines 197-202): for sqlite
every %s placeholder is rewritten to ? and absent params become the
empty tuple; the statement then goes to the driver, which loads the
backend's result rows and column description into the cursor. -/
def execute (st : DBState) (query : String) (params : Option PyVal)
    (resultRows : List PyVal) (desc : List String) : Except PyError Unit × DBState :=
  let q := if st.db_type = "sqlite" then query.replace "%s" "?" else query
  let _p := if st.db_type = "sqlite" then (params.getD (ptuple [])) else params.getD pnone
  match st.cursor with
  | Option.none => (.error .attributeError, st)
  | some _ =>
    (.ok (), { st with rows := resultRows, description := desc,
                       executed := st.executed ++ [q] })

/-- Embedding of executemany (src/db_unified.py lines 204-209), same
placeholder handling as execute but driving cursor.executemany. -/
def executemany (st : DBState) (query : String) (params : Option PyVal)
    (resultRows : List PyVal) (desc : List String) : Except PyError Unit × DBState :=
  let q := if st.db_type = "sqlite" then query.replace "%s" "?" else query
  let _p := if st.db_type = "sqlite" then (params.getD (ptuple [])) else params.getD pnone
  match st.cursor with
  | Option.none => (.error .attributeError, st)
  | some _ =>
    (.ok (), { st with rows := resultRows, description := desc,
                       executed := st.executed ++ [q] })

/-- Embedding of fetchall (src/db_unified.py lines 289-291): the
remaining buffered rows are returned and the buffer is drained; a None
cursor raises AttributeError. -/
def fetchall (st : DBState) : Except PyError (List PyVal) × DBState :=
  match st.cursor with
  | Option.none => (.error .attributeError, st)
  | some _ => (.ok st.rows, { st with rows := [], fetches := st.fetches + 1 })

/-- Embedding of fetchone (src/db_unified.py lines 293-295): the first
buffered row is returned (None when the buffer is empty) and removed
from the buffer. -/
def fetchone (st : DBState) : Except PyError PyVal × DBState :=
  match st.cursor with
  | Option.none => (.error .attributeError, st)
  | some _ =>
    match st.rows with
    | [] => (.ok pnone, { st with fetches := st.fetches + 1 })
    | r :: rest => (.ok r, { st with rows := rest, fetches := st.fetches + 1 })

/-- Embedding of the Python subscript value[0]: lists and tuples yield
their first element (IndexError when empty), a string yields its first
character, a mapping looks 0 up among its string keys (KeyError), and
None or an integer raises TypeError. -/
def pySub0 : PyVal → Except PyError PyVal
  | plist (x :: _) => .ok x
  | plist [] => .error .indexError
  | ptuple (x :: _) => .ok x
  | ptuple [] => .error .indexError
  | pstr s =>
    match s.toList with
    | [] => .error .indexError
    | c :: _ => .ok (pstr (String.mk [c]))
  | pdict _ => .error .keyError
  | pnone => .error .typeError
  | pint _ => .error .typeError

/-- Embedding of the Python conversion list(x): lists and tuples give
their elements, a string its characters, a mapping its keys; None or
an integer raises TypeError. -/
def pyList : PyVal → Except PyError (List PyVal)
  | plist xs => .ok xs
  | ptuple xs => .ok xs
  | pstr s => .ok (s.toList.map fun c => pstr (String.mk [c]))
  | pdict es => .ok (es.map fun e => pstr e.fst)
  | pnone => .error .typeError
  | pint _ => .error .typeError

/-- Embedding of the Python call value.keys() on a named row; any
non-mapping value raises AttributeError. -/
def dictKeys : PyVal → Except PyError (List String)
  | pdict es => .ok (es.map fun e => e.fst)
  | _ => .error .attributeError

/-- Embedding of the Python call value.values() on a named row. -/
def dictValues : PyVal → Except PyError (List PyVal)
  | pdict es => .ok (es.map fun e => e.snd)
  | _ => .error .attributeError

/-- Helper for the comprehension building one value list per named row
in extract_title for fetch all. -/
def rowValuesList : PyVal → Except PyError PyVal
  | pdict es => .ok (plist (es.map fun e => e.snd))
  | _ => .error .attributeError

/-- Embedding of extract_title (src/db_unified.py lines 315-338).  An
empty result list returns the empty list before any backend dispatch.
For postgresql the rows are named mappings and the titles come from
their keys; fetch values other than all, one and single leave the
local variable result unassigned, which surfaces as a name error.  For
mysql and mariadb the titles come from the cursor's column description
and the data rows are passed through replace_none_list.  Any other
backend also leaves result unassigned. -/
def extract_title (st : DBState) (value : PyVal) (fetch : String) :
    Except PyError PyVal :=
  if isEmptyListV value then .ok (plist [])
  else if st.db_type = "postgresql" then
    if fetch = "all" then
      match pySub0 value with
      | .error e => .error e
      | .ok first =>
        match dictKeys first with
        | .error e => .error e
        | .ok ks =>
          match pyList value with
          | .error e => .error e
          | .ok rows =>
            match mapMEx rowValuesList rows with
            | .error e => .error e
            | .ok rowVals =>
              match replace_none_list rowVals with
              | .error e => .error e
              | .ok rep => .ok (plist [plist (ks.map pstr), plist rep])
    else if fetch = "one" then
      match dictKeys value with
      | .error e => .error e
      | .ok ks =>
        match dictValues value with
        | .error e => .error e
        | .ok vs =>
          match replace_none_list vs with
          | .error e => .error e
          | .ok rep => .ok (plist [plist (ks.map pstr), plist rep])
    else if fetch = "single" then
      match dictKeys value with
      | .error e => .error e
      | .ok ks =>
        match ks with
        | [] => .error .indexError
        | k0 :: _ =>
          match dictValues value with
          | .error e => .error e
          | .ok vs =>
            match replace_none_list vs with
            | .error e => .error e
            | .ok rep =>
              match rep with
              | [] => .error .indexError
              | r0 :: _ => .ok (plist [pstr k0, r0])
    else .error .nameError
  else if st.db_type = "mysql" || st.db_type = "mariadb" then
    match pyList value with
    | .error e => .error e
    | .ok rows =>
      match replace_none_list rows with
      | .error e => .error e
      | .ok rep => .ok (plist [plist (st.description.map pstr), plist rep])
  else .error .nameError

/-- Embedding of the statement classification in exec
(src/db_unified.py lines 234-238): the commit flag is set exactly when
the uppercased first 20 characters contain neither SELECT nor SHOW. -/
def classifyCommit (query : String) : Bool :=
  !(listContains "SELECT".toList ((pyUpper query).take 20)) &&
  !(listContains "SHOW".toList ((pyUpper query).take 20))

/-- The fetch-quantity dispatch of exec (src/db_unified.py lines
252-275): all, one, single and list drive the cursor as the source
does (one and single drain the remaining buffered rows after reading),
and any other quantity raises ValueError with no cleanup. -/
def execFetchDispatch (st2 : DBState) (fetch : String) (fetch_title : Bool) :
    Except PyError PyVal × DBState :=
  if fetch = "all" then
    match fetchall st2 with
    | (.error e, st) => (.error e, st)
    | (.ok rows, st) =>
      if fetch_title then (extract_title st (plist rows) fetch, st)
      else (.ok (plist rows), st)
  else if fetch = "one" then
    match fetchone st2 with
    | (.error e, st) => (.error e, st)
    | (.ok v, st) =>
      match (if fetch_title then extract_title st v fetch else .ok v) with
      | .error e => (.error e, st)
      | .ok v1 =>
        match fetchall st with
        | (.error e, st) => (.error e, st)
        | (.ok _, st) => (.ok v1, st)
  else if fetch = "single" then
    match fetchone st2 with
    | (.error e, st) => (.error e, st)
    | (.ok v, st) =>
      match (if fetch_title then extract_title st v fetch
             else if !(isNoneV v) then pySub0 v
             else .ok v) with
      | .error e => (.error e, st)
      | .ok v1 =>
        match fetchall st with
        | (.error e, st) => (.error e, st)
        | (.ok _, st) => (.ok v1, st)
  else if fetch = "list" then
    match fetchall st2 with
    | (.error e, st) => (.error e, st)
    | (.ok rows, st) =>
      match mapMEx pySub0 rows with
      | .error e => (.error e, st)
      | .ok heads => (.ok (plist heads), st)
  else
    (.error .valueErrorWrongFetch, st2)

/-- The post-close coercion of exec (src/db_unified.py lines 277-282):
when fetch_type is list, a fetch all result has each of its rows
converted by list(item), and a not-None one or single result is
converted by list(value). -/
def execCoerce (value : PyVal) (fetch fetch_type : String) : Except PyError PyVal :=
  if fetch_type = "list" then
    if fetch = "all" then
      match pyList value with
      | .error e => .error e
      | .ok items =>
        match mapMEx (fun it =>
            match pyList it with
            | .error e => .error e
            | .ok l => .ok (plist l)) items with
        | .error e => .error e
        | .ok ls => .ok (plist ls)
    else if (fetch = "one" || fetch = "single") && !(isNoneV value) then
      match pyList value with
      | .error e => .error e
      | .ok items => .ok (plist items)
    else .ok value
  else .ok value

/-- Embedding of the local variable fetch_type of exec: the legacy
alias dict_name is rewritten to with_names
(src/db_unified.py lines 231-233). -/
def resolveFetchType (fetch_type0 : String) : String :=
  if fetch_type0 = "dict_name" then "with_names" else fetch_type0

/-- Embedding of the local variable fetch_title of exec: titles are
extracted exactly when the resolved fetch_type is with_names
(src/db_unified.py lines 248-251). -/
def fetchTitleOf (fetch_type0 : String) : Bool :=
  resolveFetchType fetch_type0 = "with_names"

/-- The projecting tail of exec (src/db_unified.py lines 246-283):
the fetch-quantity dispatch runs, the cursor is closed passing the
commit flag and auto_connect, then the list coercion is applied and
the value is returned. -/
def execFetchPhase (st2 : DBState) (query fetch : String) (auto_connect : Bool)
    (fetch_type0 : String) : Except PyError (Option PyVal) × DBState :=
  match execFetchDispatch st2 fetch (fetchTitleOf fetch_type0) with
  | (.error e, st) => (.error e, st)
  | (.ok value, st3) =>
    match close st3 (classifyCommit query) auto_connect with
    | (.error e, st) => (.error e, st)
    | (.ok _, st4) =>
      match execCoerce value fetch (resolveFetchType fetch_type0) with
      | .error e => (.error e, st4)
      | .ok v => (.ok (some v), st4)

/-- The mutating tail of exec (src/db_unified.py lines 284-285): the
cursor is closed with the commit flag set and nothing is returned. -/
def execCommitPhase (st2 : DBState) (query : String) (auto_connect : Bool) :
    Except PyError (Option PyVal) × DBState :=
  match close st2 (classifyCommit query) auto_connect with
  | (.error e, st) => (.error e, st)
  | (.ok _, st) => (.ok Option.none, st)

/-- Embedding of exec (src/db_unified.py lines 211-287).  The legacy
fetch_type alias dict_name is first rewritten to with_names; the
commit flag is computed from the first 20 uppercased characters; the
session is opened (a false return raises the cursor-creation
AttributeError); the statement is executed, via executemany when
insert_many is requested on postgresql or mariadb; when the statement
is not a commit or its uppercased text contains RETURNING the
projecting tail runs, otherwise the mutating tail.  resultRows and
desc stand for what the backend hands the cursor on execute. -/
def exec (st0 : DBState) (query : String) (params : Option PyVal)
    (fetch : String) (auto_connect : Bool) (fetch_type0 : String)
    (insert_many : Bool) (resultRows : List PyVal) (desc : List String) :
    Except PyError (Option PyVal) × DBState :=
  match openCur st0 auto_connect (resolveFetchType fetch_type0) with
  | (.error e, st) => (.error e, st)
  | (.ok false, st) => (.error .attributeErrorCursor, st)
  | (.ok true, st1) =>
    match (if insert_many && (st1.db_type = "postgresql" || st1.db_type = "mariadb")
           then executemany st1 query params resultRows desc
           else execute st1 query params resultRows desc) with
    | (.error e, st) => (.error e, st)
    | (.ok _, st2) =>
      if !(classifyCommit query) || containsInUpper query "RETURNING" then
        execFetchPhase st2 query fetch auto_connect fetch_type0
      else
        execCommitPhase st2 query auto_connect

/-- The resolved attribute set a successful construction leaves on the
object.  The seven core attributes are preset to None by the
constructor, so they are plain values; the ssl attributes only exist
when a config mapping was supplied, and the passwd attribute only
exists when the password default branch ran, so those are optional. -/
structure Profile where
  db_type : PyVal
  database : PyVal
  host : PyVal
  port : PyVal
  user : PyVal
  password : PyVal
  sslmode : PyVal
  options : PyVal
  ssl_ca : Option PyVal
  ssl_key : Option PyVal
  ssl_cert : Option PyVal
  ssl_verify_cert : Option PyVal
  passwd : Option PyVal
deriving Repr

/-- Embedding of the Python call config.get(key, default): a present
key yields its stored value (which may itself be None), an absent key
yields the default. -/
def cfgGet (c : List (String × PyVal)) (k : String) (default : PyVal) : PyVal :=
  match c.lookup k with
  | some v => v
  | Option.none => default

/-- Embedding of the Python call config.get(key) with no default. -/
def cfgGetN (c : List (String × PyVal)) (k : String) : PyVal :=
  cfgGet c k pnone

/-- Embedding of the constructor of db_unified
(src/db_unified.py lines 4-124).  Arguments model the keyword
parameters, pnone standing for an omitted argument; config models the
optional configuration mapping.  The embedded control flow follows the
source: the db_type presence guard, the db_type resolution (which
calls config.get on a None config when no db_type argument was given
and no config exists, raising AttributeError), the per-type defaults,
the config merge, the explicit-argument overrides and the ordered
completeness checks, where a None password sets the attribute passwd
to the empty string instead of failing. -/
def dbInit (db_type db_name db_server db_port db_user db_password sslmode options : PyVal)
    (config : Option (List (String × PyVal))) : Except PyError Profile :=
  let database := pnone
  let host := pnone
  let port := pnone
  let user := pnone
  let password := pnone
  let sslmode0 := pnone
  let options0 := pnone
  if isNoneV db_type &&
     (match config with
      | some c => isNoneV (cfgGetN c "type")
      | Option.none => false) then .error .valueErrorDbType
  else
    match (if !(isNoneV db_type) then Except.ok db_type
           else match config with
                | some c => Except.ok (cfgGetN c "type")
                | Option.none => Except.error PyError.attributeError) with
    | .error e => .error e
    | .ok dbt =>
      let (database, host, port, user, password, sslmodeV, optionsV) :=
        if isStrV dbt "postgresql" then
          (database, host, pint 5432, pstr "postgres", password, pstr "allow", pstr "")
        else if isStrV dbt "mariadb" then
          (database, host, pint 3306, user, password, pstr "allow", pstr "")
        else if isStrV dbt "mysql" then
          (database, host, pint 3306, user, password, pstr "allow", pstr "")
        else if isStrV dbt "sqlserver" then
          (database, host, pstr "", user, password, pstr "allow", pstr "")
        else if isStrV dbt "sqlite" then
          (database, pstr "", pstr "", pstr "", pstr "", pstr "", pstr "")
        else (database, host, port, user, password, sslmode0, options0)
      let (database, host, port, user, password, sslmodeV, optionsV,
           ssl_ca, ssl_key, ssl_cert, ssl_verify_cert) :=
        match config with
        | some c =>
          (cfgGet c "name" database, cfgGet c "addr" host, cfgGet c "port" port,
           cfgGet c "user" user, cfgGet c "passwd" password,
           cfgGet c "sslmode" sslmodeV, cfgGet c "options" optionsV,
           some (cfgGetN c "ssl_ca"), some (cfgGetN c "ssl_key"),
           some (cfgGetN c "ssl_cert"), some (cfgGetN c "ssl_verify_cert"))
        | Option.none =>
          (database, host, port, user, password, sslmodeV, optionsV,
           Option.none, Option.none, Option.none, Option.none)
      let database := if !(isNoneV db_name) then db_name else database
      let host := if !(isNoneV db_server) then db_server else host
      let port := if !(isNoneV db_port) then db_port else port
      let user := if !(isNoneV db_user) then db_user else user
      let password := if !(isNoneV db_password) then db_password else password
      let sslmodeV := if !(isNoneV sslmode) then sslmode else sslmodeV
      let optionsV := if !(isNoneV options) then options else optionsV
      if isNoneV database then .error .valueErrorDbName
      else if isNoneV host then .error .valueErrorHost
      else if isNoneV port then .error .valueErrorPort
      else if isNoneV user then .error .valueErrorUser
      else
        let passwd : Option PyVal :=
          if isNoneV password then some (pstr "") else Option.none
        if isNoneV sslmodeV then .error .valueErrorSslmode
        else if isNoneV optionsV then .error .valueErrorOptions
        else .ok ⟨dbt, database, host, port, user, password, sslmodeV, optionsV,
                  ssl_ca, ssl_key, ssl_cert, ssl_verify_cert, passwd⟩

/-- A freshly constructed postgresql handle that has been connected:
no cursor yet, an open native connection, fresh counters.  This is the
start state the run-operation theorems quantify from. -/
def ready0 : DBState :=
  ⟨"postgresql", some true, Option.none, [], 0, [], [], [], 0, 0⟩

/-- The state right after a successful openCur from ready0: one native
cursor with identifier 0, connection open. -/
def stOpen : DBState :=
  ⟨"postgresql", some true, some 0, [0], 1, [], [], [], 0, 0⟩

/-- The state right after executing a statement from stOpen: the
backend's rows and column description are buffered in the cursor and
the statement text is recorded. -/
def stExec (q : String) (rows : List PyVal) (d : List String) : DBState :=
  ⟨"postgresql", some true, some 0, [0], 1, rows, d, [q], 0, 0⟩

/-- The single-cursor session invariant: every native cursor still
open is the one the handle currently points at, and there is at most
one of them. -/
def CursorInv (st : DBState) : Prop :=
  st.openCursors = [] ∨ ∃ c, st.openCursors = [c] ∧ st.cursor = some c

/-- The level-1 replacement map is idempotent on single values. -/
theorem replaceNoneElem_idem (v : PyVal) :
    replaceNoneElem (replaceNoneElem v) = replaceNoneElem v := by
  cases v <;> rfl

/-- The level-1 replacement map is idempotent on lists. -/
theorem map_replaceNoneElem_idem (xs : List PyVal) :
    (xs.map replaceNoneElem).map replaceNoneElem = xs.map replaceNoneElem := by
  induction xs with
  | nil => rfl
  | cons x xs ih => simp [List.map_cons, replaceNoneElem_idem, ih]

/-- The level-1 replacement map never turns a non-list into a list. -/
theorem isListV_replaceNoneElem (v : PyVal) (h : isListV v = false) :
    isListV (replaceNoneElem v) = false := by
  cases v <;> simp_all [replaceNoneElem, isNoneV, isListV]

/-- A successful per-row replacement is idempotent. -/
theorem replaceRow_idem {x y : PyVal} (h : replaceRow x = .ok y) :
    replaceRow y = .ok y := by
  cases x with
  | pnone => simp [replaceRow] at h
  | pint n => simp [replaceRow] at h
  | pstr s => simp [replaceRow] at h; subst h; rfl
  | pdict es => simp [replaceRow] at h; subst h; rfl
  | plist ys =>
    simp [replaceRow] at h
    subst h
    simp only [replaceRow]
    rw [map_replaceNoneElem_idem]
  | ptuple ys =>
    cases ha : ys.any isNoneV with
    | true => simp [replaceRow, ha] at h
    | false =>
      simp [replaceRow, ha] at h
      subst h
      simp [replaceRow, ha]

/-- A successful row-wise pass over a whole list is idempotent. -/
theorem mapMEx_replaceRow_idem :
    ∀ {xs ys : List PyVal}, mapMEx replaceRow xs = .ok ys →
      mapMEx replaceRow ys = .ok ys := by
  intro xs
  induction xs with
  | nil =>
    intro ys h
    simp [mapMEx] at h
    subst h
    rfl
  | cons x xs ih =>
    intro ys h
    rw [mapMEx] at h
    cases hfx : replaceRow x with
    | error e => rw [hfx] at h; simp at h
    | ok y =>
      rw [hfx] at h
      cases hxs : mapMEx replaceRow xs with
      | error e => rw [hxs] at h; simp at h
      | ok ys2 =>
        rw [hxs] at h
        simp at h
        subst h
        simp [mapMEx, replaceRow_idem hfx, ih hxs]

/-- Claim C6: missing-value normalization is idempotent on every
non-empty sequence: applying replace_none_list twice (composing with
Except.bind, so a first-pass failure is the result of both) yields
exactly the result of applying it once. -/
theorem replace_none_list_idempotent (liste : List PyVal) (h : liste ≠ []) :
    Except.bind (replace_none_list liste) replace_none_list =
      replace_none_list liste := by
  obtain ⟨x, xs, rfl⟩ := List.exists_cons_of_ne_nil h
  cases hx : isListV x with
  | true =>
    rw [replace_none_list]
    simp only [hx, if_true]
    cases hm : mapMEx replaceRow (x :: xs) with
    | error e => rfl
    | ok ys =>
      have hys := mapMEx_replaceRow_idem hm
      obtain ⟨l, rfl⟩ : ∃ l, x = plist l := by
        cases x <;> simp_all [isListV]
      rw [mapMEx] at hm
      simp only [replaceRow] at hm
      cases hxs : mapMEx replaceRow xs with
      | error e => rw [hxs] at hm; simp at hm
      | ok ys2 =>
        rw [hxs] at hm
        simp at hm
        subst hm
        show Except.bind (Except.ok _) replace_none_list = _
        rw [show ∀ a f, Except.bind (Except.ok a) f = f a from fun a f => rfl]
        rw [replace_none_list]
        simp only [isListV, if_true]
        exact hys.symm ▸ rfl
  | false =>
    rw [replace_none_list]
    simp only [hx, Bool.false_eq_true, if_false]
    show Except.bind (Except.ok _) replace_none_list = _
    rw [show ∀ a f, Except.bind (Except.ok a) f = f a from fun a f => rfl]
    rw [List.map_cons, replace_none_list]
    simp only [isListV_replaceNoneElem x hx, Bool.false_eq_true, if_false]
    rw [← List.map_cons, map_replaceNoneElem_idem]

/-- Claim C6 witness at a concrete non-empty input. -/
theorem replace_none_list_idempotent_witness :
    ([pnone, pint 1] : List PyVal) ≠ [] ∧
      Except.bind (replace_none_list [pnone, pint 1]) replace_none_list =
        replace_none_list [pnone, pint 1] :=
  ⟨by simp, replace_none_list_idempotent [pnone, pint 1] (by simp)⟩

/-- Claim C10: replace_none_list decides its mode solely from the type
of the first element of its non-empty input.  When the first element
is not a list the whole input is mapped flat, replacing only top-level
None entries, and any list-typed element (even one containing None) is
passed through unchanged; when the first element is a list, every
element is treated as a row and iterated element-wise, a list row
having each of its None elements replaced. -/
theorem replace_none_list_mode (x : PyVal) (xs : List PyVal) :
    (isListV x = false →
      replace_none_list (x :: xs) =
        .ok ((x :: xs).map fun v => if isNoneV v then pstr "" else v) ∧
      ∀ v, isListV v = true → (if isNoneV v then pstr "" else v) = v) ∧
    (isListV x = true →
      replace_none_list (x :: xs) = mapMEx replaceRow (x :: xs) ∧
      ∀ ys, replaceRow (plist ys) =
        .ok (plist (ys.map fun v => if isNoneV v then pstr "" else v))) := by
  constructor
  · intro hx
    constructor
    · rw [replace_none_list]
      simp only [hx, Bool.false_eq_true, if_false]
      rfl
    · intro v hv
      cases v <;> simp_all [isListV, isNoneV]
  · intro hx
    constructor
    · rw [replace_none_list]
      simp only [hx, if_true]
    · intro ys
      rfl

/-- Claim C10 witness: both modes exercised at concrete inputs; in
flat mode a later list element keeps its nested None. -/
theorem replace_none_list_mode_witness :
    (isListV (pint 1) = false ∧
      replace_none_list [pint 1, pnone, plist [pnone]] =
        .ok [pint 1, pstr "", plist [pnone]]) ∧
    (isListV (plist [pnone]) = true ∧
      replace_none_list [plist [pnone], plist [pint 2]] =
        mapMEx replaceRow [plist [pnone], plist [pint 2]]) := by
  refine ⟨⟨rfl, ?_⟩, ⟨rfl, ?_⟩⟩
  · have h := (replace_none_list_mode (pint 1) [pnone, plist [pnone]]).1 rfl
    rw [h.1]
    rfl
  · exact ((replace_none_list_mode (plist [pnone]) [plist [pint 2]]).2 rfl).1

/-- Claim C2: for every backend kind and any fetch quantity, an empty
raw result presented to the with-titles normalizer comes back as the
empty sequence, not a two-element titles-and-data pair. -/
theorem extract_title_empty (st : DBState) (fetch : String) :
    extract_title st (plist []) fetch = .ok (plist []) := by
  rw [extract_title]
  rfl

/-- Claim C3 (code bug): when the password is absent after merging,
construction succeeds, but the password attribute is left as None and
a separate attribute named passwd is set to the empty string instead
(the assignment self.passwd in src/db_unified.py line 118 misspells
self.password).  The ordered hard-failure checks for the other fields
do hold: with both database name and host absent the name failure
wins, and with only the host absent the host failure fires. -/
theorem dbInit_password_not_coerced :
    (∃ p, dbInit (pstr "postgresql") (pstr "d") (pstr "h")
            pnone pnone pnone pnone pnone Option.none = .ok p ∧
          p.password = pnone ∧ p.passwd = some (pstr "")) ∧
    dbInit (pstr "sqlserver") pnone pnone pnone pnone pnone pnone pnone
        Option.none = .error .valueErrorDbName ∧
    dbInit (pstr "postgresql") (pstr "d") pnone pnone pnone pnone pnone pnone
        Option.none = .error .valueErrorHost := by
  exact ⟨⟨_, rfl, rfl, rfl⟩, rfl, rfl⟩

/-- Claim C4 (code bug): with the backend kind absent from both the
explicit argument and a supplied config mapping the constructor does
raise its explanatory ValueError before anything else, even when other
fields are supplied; but when no config mapping is supplied at all the
guard on src/db_unified.py line 36 is skipped and the db_type
resolution on line 40 calls get on None, raising a bare AttributeError
instead of the intended configuration error. -/
theorem dbInit_missing_type :
    dbInit pnone pnone pnone pnone pnone pnone pnone pnone Option.none =
      .error .attributeError ∧
    dbInit pnone pnone pnone pnone pnone pnone pnone pnone (some []) =
      .error .valueErrorDbType ∧
    dbInit pnone (pstr "d") (pstr "h") pnone pnone pnone pnone pnone (some []) =
      .error .valueErrorDbType := by
  exact ⟨rfl, rfl, rfl⟩

/-- Transport of the single-cursor invariant along equal cursor
bookkeeping fields. -/
theorem cursorInv_of_fields {st st2 : DBState} (h : CursorInv st)
    (h1 : st2.openCursors = st.openCursors) (h2 : st2.cursor = st.cursor) :
    CursorInv st2 := by
  rcases h with h | ⟨c, hA, hB⟩
  · exact Or.inl (h1.trans h)
  · exact Or.inr ⟨c, h1.trans hA, h2.trans hB⟩

/-- Under the invariant, closing the current cursor empties the set of
open native cursors. -/
theorem cursorInv_erase (st : DBState) (c : Nat) (h : CursorInv st)
    (hc : st.cursor = some c) : st.openCursors.erase c = [] := by
  rcases h with h | ⟨c0, h1, h2⟩
  · simp [h]
  · rw [hc] at h2
    injection h2 with h3
    subst h3
    simp [h1]

/-- connect does not touch the cursor bookkeeping. -/
theorem connect_fields (st : DBState) :
    (connect st).2.openCursors = st.openCursors ∧
      (connect st).2.cursor = st.cursor := by
  cases hk : knownDbType st.db_type <;> simp [connect, hk]

/-- disconnect does not touch the cursor bookkeeping. -/
theorem disconnect_fields (st : DBState) :
    (disconnect st).2.openCursors = st.openCursors ∧
      (disconnect st).2.cursor = st.cursor := by
  rcases hdb : st.db with _ | b <;> simp [disconnect, hdb]

/-- commit does not touch the cursor bookkeeping. -/
theorem commitOp_fields (st : DBState) :
    (commitOp st).2.openCursors = st.openCursors ∧
      (commitOp st).2.cursor = st.cursor := by
  rcases hdb : st.db with _ | b <;> (try cases b) <;> simp [commitOp, hdb]

/-- execute does not touch the cursor bookkeeping. -/
theorem execute_fields (st : DBState) (q : String) (p : Option PyVal)
    (rows : List PyVal) (d : List String) :
    (execute st q p rows d).2.openCursors = st.openCursors ∧
      (execute st q p rows d).2.cursor = st.cursor := by
  cases hc : st.cursor <;> simp [execute, hc]

/-- executemany does not touch the cursor bookkeeping. -/
theorem executemany_fields (st : DBState) (q : String) (p : Option PyVal)
    (rows : List PyVal) (d : List String) :
    (executemany st q p rows d).2.openCursors = st.openCursors ∧
      (executemany st q p rows d).2.cursor = st.cursor := by
  cases hc : st.cursor <;> simp [executemany, hc]

/-- fetchall does not touch the cursor bookkeeping. -/
theorem fetchall_fields (st : DBState) :
    (fetchall st).2.openCursors = st.openCursors ∧
      (fetchall st).2.cursor = st.cursor := by
  cases hc : st.cursor <;> simp [fetchall, hc]

/-- fetchone does not touch the cursor bookkeeping. -/
theorem fetchone_fields (st : DBState) :
    (fetchone st).2.openCursors = st.openCursors ∧
      (fetchone st).2.cursor = st.cursor := by
  cases hc : st.cursor with
  | none => simp [fetchone, hc]
  | some c => cases hr : st.rows <;> simp [fetchone, hc, hr]

/-- Under the invariant, the open-cursor list is empty or the
singleton of the current cursor. -/
theorem cursorInv_resolve {st : DBState} {c : Nat} (h : CursorInv st)
    (hc : st.cursor = some c) :
    st.openCursors = [] ∨ st.openCursors = [c] := by
  rcases h with h1 | ⟨c0, h1, h2⟩
  · exact Or.inl h1
  · rw [hc] at h2
    injection h2 with h3
    subst h3
    exact Or.inr h1

/-- close preserves the single-cursor invariant on every path. -/
theorem cursorInv_close (st : DBState) (h : CursorInv st) (cb ac : Bool) :
    CursorInv (close st cb ac).2 := by
  cases hc : st.cursor with
  | none =>
    cases cb <;> cases ac <;>
      rcases hdb : st.db with _ | b <;> (try cases b) <;>
        simp [close, commitOp, disconnect, hc, hdb] <;>
          first
            | exact h
            | exact cursorInv_of_fields h rfl rfl
            | exact cursorInv_of_fields h rfl hc.symm
  | some c =>
    have he := cursorInv_erase st c h hc
    cases cb <;> cases ac <;>
      rcases hdb : st.db with _ | b <;> (try cases b) <;>
        simp [close, commitOp, disconnect, hc, hdb, he, CursorInv] <;>
          first
            | exact h
            | exact cursorInv_of_fields h rfl rfl
            | exact cursorInv_of_fields h rfl hc.symm
            | exact cursorInv_resolve h hc

/-- close never grows the set of open native cursors. -/
theorem close_shrinks (st : DBState) (cb ac : Bool) :
    (close st cb ac).2.openCursors.length ≤ st.openCursors.length := by
  cases hc : st.cursor with
  | none =>
    cases cb <;> cases ac <;>
      rcases hdb : st.db with _ | b <;> (try cases b) <;>
        simp [close, commitOp, disconnect, hc, hdb]
  | some c =>
    cases cb <;> cases ac <;>
      rcases hdb : st.db with _ | b <;> (try cases b) <;>
        simp [close, commitOp, disconnect, hc, hdb] <;>
          exact List.length_erase_le _ _

/-- openCur preserves the single-cursor invariant, and on success the
set of open native cursors is exactly the newly created one: any
pre-existing cursor was closed first. -/
theorem openCur_state (st : DBState) (h : CursorInv st) (ac : Bool) (ft : String) :
    CursorInv (openCur st ac ft).2 ∧
      ((openCur st ac ft).1 = .ok true →
        (openCur st ac ft).2.openCursors = [st.nextId] ∧
        (openCur st ac ft).2.cursor = some st.nextId) := by
  have h0 : st.cursor = Option.none → st.openCursors = [] := by
    intro hc
    rcases h with h | ⟨c0, h1, h2⟩
    · exact h
    · rw [hc] at h2; cases h2
  cases hc : st.cursor with
  | none =>
    have h00 := h0 hc
    cases ac <;> cases hk : knownDbType st.db_type <;>
      rcases hdb : st.db with _ | b <;> (try cases b) <;>
        cases hft : (ft = "tuple" || ft = "list" || ft = "dict" ||
          ft = "with_names") <;>
          simp [openCur, connect, CursorInv, hc, hdb, hk, hft, h00]
  | some c =>
    have he := cursorInv_erase st c h hc
    cases ac <;> cases hk : knownDbType st.db_type <;>
      rcases hdb : st.db with _ | b <;> (try cases b) <;>
        cases hft : (ft = "tuple" || ft = "list" || ft = "dict" ||
          ft = "with_names") <;>
          simp [openCur, connect, CursorInv, hc, hdb, hk, hft, he] <;>
            first
              | exact h
              | exact cursorInv_of_fields h rfl rfl
              | exact cursorInv_of_fields h rfl hc.symm
              | exact cursorInv_resolve h hc

/-- The fetch-quantity dispatch preserves the single-cursor invariant
on every path. -/
theorem cursorInv_execFetchDispatch (st : DBState) (h : CursorInv st)
    (fetch : String) (ftl : Bool) :
    CursorInv (execFetchDispatch st fetch ftl).2 := by
  have hfa : forall st2 : DBState, CursorInv st2 -> CursorInv (fetchall st2).2 :=
    fun st2 h2 =>
      cursorInv_of_fields h2 (fetchall_fields st2).1 (fetchall_fields st2).2
  have hfo : forall st2 : DBState, CursorInv st2 -> CursorInv (fetchone st2).2 :=
    fun st2 h2 =>
      cursorInv_of_fields h2 (fetchone_fields st2).1 (fetchone_fields st2).2
  unfold execFetchDispatch
  split
  · split
    next e st1 heq =>
      have h2 := hfa st h
      rw [heq] at h2
      exact h2
    next rows st1 heq =>
      have h2 := hfa st h
      rw [heq] at h2
      split <;> exact h2
  · split
    · split
      next e st1 heq =>
        have h2 := hfo st h
        rw [heq] at h2
        exact h2
      next v st1 heq =>
        have h2 := hfo st h
        rw [heq] at h2
        split
        next e heq2 => exact h2
        next v1 heq2 =>
          split
          next e st2 heq3 =>
            have h3 := hfa st1 h2
            rw [heq3] at h3
            exact h3
          next u st2 heq3 =>
            have h3 := hfa st1 h2
            rw [heq3] at h3
            exact h3
    · split
      · split
        next e st1 heq =>
          have h2 := hfo st h
          rw [heq] at h2
          exact h2
        next v st1 heq =>
          have h2 := hfo st h
          rw [heq] at h2
          split
          next e heq2 => exact h2
          next v1 heq2 =>
            split
            next e st2 heq3 =>
              have h3 := hfa st1 h2
              rw [heq3] at h3
              exact h3
            next u st2 heq3 =>
              have h3 := hfa st1 h2
              rw [heq3] at h3
              exact h3
      · split
        · split
          next e st1 heq =>
            have h2 := hfa st h
            rw [heq] at h2
            exact h2
          next rows st1 heq =>
            have h2 := hfa st h
            rw [heq] at h2
            split
            next e heq2 => exact h2
            next heads heq2 => exact h2
        · exact h

/-- The projecting tail of exec preserves the single-cursor
invariant on every path. -/
theorem cursorInv_execFetchPhase (st2 : DBState) (h : CursorInv st2)
    (q fe : String) (ac : Bool) (ft0 : String) :
    CursorInv (execFetchPhase st2 q fe ac ft0).2 := by
  unfold execFetchPhase
  split
  next e st3 heq3 =>
    have h3 := cursorInv_execFetchDispatch st2 h fe (fetchTitleOf ft0)
    rw [heq3] at h3
    exact h3
  next value st3 heq3 =>
    have hI3 : CursorInv st3 := by
      have h3 := cursorInv_execFetchDispatch st2 h fe (fetchTitleOf ft0)
      rw [heq3] at h3
      exact h3
    split
    next e st4 heq4 =>
      have h4 := cursorInv_close st3 hI3 (classifyCommit q) ac
      rw [heq4] at h4
      exact h4
    next u2 st4 heq4 =>
      have hI4 : CursorInv st4 := by
        have h4 := cursorInv_close st3 hI3 (classifyCommit q) ac
        rw [heq4] at h4
        exact h4
      split
      next e heq5 => exact hI4
      next v heq5 => exact hI4

/-- The mutating tail of exec preserves the single-cursor invariant
on every path. -/
theorem cursorInv_execCommitPhase (st2 : DBState) (h : CursorInv st2)
    (q : String) (ac : Bool) :
    CursorInv (execCommitPhase st2 q ac).2 := by
  unfold execCommitPhase
  split
  next e st4 heq4 =>
    have h4 := cursorInv_close st2 h (classifyCommit q) ac
    rw [heq4] at h4
    exact h4
  next u2 st4 heq4 =>
    have h4 := cursorInv_close st2 h (classifyCommit q) ac
    rw [heq4] at h4
    exact h4

/-- exec preserves the single-cursor invariant on every path. -/
theorem cursorInv_exec (st : DBState) (h : CursorInv st) (q : String)
    (p : Option PyVal) (fe : String) (ac : Bool) (ft0 : String) (im : Bool)
    (rows : List PyVal) (d : List String) :
    CursorInv (exec st q p fe ac ft0 im rows d).2 := by
  unfold exec
  split
  next e st1 heq =>
    have h1 := (openCur_state st h ac (resolveFetchType ft0)).1
    rw [heq] at h1
    exact h1
  next st1 heq =>
    have h1 := (openCur_state st h ac (resolveFetchType ft0)).1
    rw [heq] at h1
    exact h1
  next st1 heq =>
    have hI1 : CursorInv st1 := by
      have h1 := (openCur_state st h ac (resolveFetchType ft0)).1
      rw [heq] at h1
      exact h1
    have hStep : forall (r2 : Except PyError Unit) (st2 : DBState),
        (if im && (st1.db_type = "postgresql" || st1.db_type = "mariadb")
         then executemany st1 q p rows d
         else execute st1 q p rows d) = (r2, st2) -> CursorInv st2 := by
      intro r2 st2 he2
      cases him : (im && (st1.db_type = "postgresql" || st1.db_type = "mariadb")) with
      | true =>
        rw [him] at he2
        simp only [if_true] at he2
        have hf := executemany_fields st1 q p rows d
        rw [he2] at hf
        exact cursorInv_of_fields hI1 hf.1 hf.2
      | false =>
        rw [him] at he2
        simp only [Bool.false_eq_true, if_false] at he2
        have hf := execute_fields st1 q p rows d
        rw [he2] at hf
        exact cursorInv_of_fields hI1 hf.1 hf.2
    split
    next e st2 heq2 => exact hStep _ st2 heq2
    next u st2 heq2 =>
      have hI2 : CursorInv st2 := hStep _ st2 heq2
      split
      · exact cursorInv_execFetchPhase st2 hI2 q fe ac ft0
      · exact cursorInv_execCommitPhase st2 hI2 q ac

/-- Evaluation of exec from the connected ready state with fetch_type
tuple and no batch flag, for either value of auto_connect: the session
opens, the statement executes, and what remains is the classification
branch of the source. -/
theorem exec_eval (q : String) (p : Option PyVal) (fetch : String)
    (rows : List PyVal) (d : List String) (ac : Bool) :
    exec ready0 q p fetch ac "tuple" false rows d =
      (if !(classifyCommit q) || containsInUpper q "RETURNING" then
        execFetchPhase (stExec q rows d) q fetch ac "tuple"
      else
        execCommitPhase (stExec q rows d) q ac) := by
  cases ac <;> rfl

/-- Evaluation of close on the states the dispatch leaves behind. -/
theorem close_eval (R : List PyVal) (d E : List String)
    (n m : Nat) (cb ac : Bool) :
    close ⟨"postgresql", some true, some 0, [0], 1, R, d, E, n, m⟩ cb ac =
      (.ok (), ⟨"postgresql", some (!ac), some 0, [], 1, R, d, E, n,
        m + (if cb then 1 else 0)⟩) := by
  cases cb <;> cases ac <;> rfl

/-- Dispatch evaluation for quantity all without title extraction. -/
theorem dispatch_all (q : String) (rows : List PyVal) (d : List String) :
    execFetchDispatch (stExec q rows d) "all" false =
      (.ok (plist rows), ⟨"postgresql", some true, some 0, [0], 1, [], d, [q], 1, 0⟩) :=
  rfl

/-- Dispatch evaluation for quantity one on an empty result. -/
theorem dispatch_one_nil (q : String) (d : List String) :
    execFetchDispatch (stExec q [] d) "one" false =
      (.ok pnone, ⟨"postgresql", some true, some 0, [0], 1, [], d, [q], 2, 0⟩) :=
  rfl

/-- Dispatch evaluation for quantity one on a non-empty result. -/
theorem dispatch_one_cons (q : String) (r : PyVal) (rest : List PyVal)
    (d : List String) :
    execFetchDispatch (stExec q (r :: rest) d) "one" false =
      (.ok r, ⟨"postgresql", some true, some 0, [0], 1, [], d, [q], 2, 0⟩) :=
  rfl

/-- Dispatch evaluation for quantity single on an empty result. -/
theorem dispatch_single_nil (q : String) (d : List String) :
    execFetchDispatch (stExec q [] d) "single" false =
      (.ok pnone, ⟨"postgresql", some true, some 0, [0], 1, [], d, [q], 2, 0⟩) :=
  rfl

/-- Dispatch evaluation for quantity single on a leading non-empty
tuple row. -/
theorem dispatch_single_cons (q : String) (a : PyVal) (t rest : List PyVal)
    (d : List String) :
    execFetchDispatch (stExec q (ptuple (a :: t) :: rest) d) "single" false =
      (.ok a, ⟨"postgresql", some true, some 0, [0], 1, [], d, [q], 2, 0⟩) :=
  rfl

/-- Reducing every fetched non-empty tuple row to its first field
succeeds and produces the heads. -/
theorem mapMEx_pySub0_tuples (rs : List (List PyVal))
    (hne : forall r, r ∈ rs -> r ≠ []) :
    mapMEx pySub0 (rs.map ptuple) = .ok (rs.map List.headI) := by
  induction rs with
  | nil => rfl
  | cons r rest ih =>
    obtain ⟨a, t, rfl⟩ := List.exists_cons_of_ne_nil (hne r (List.mem_cons_self r rest))
    simp only [List.map_cons, mapMEx, pySub0]
    rw [ih fun x hx => hne x (List.mem_cons_of_mem _ hx)]
    rfl

/-- Dispatch evaluation for quantity list over non-empty tuple rows. -/
theorem dispatch_list (q : String) (rs : List (List PyVal)) (d : List String)
    (hne : forall r, r ∈ rs -> r ≠ []) :
    execFetchDispatch (stExec q (rs.map ptuple) d) "list" false =
      (.ok (plist (rs.map List.headI)),
        ⟨"postgresql", some true, some 0, [0], 1, [], d, [q], 1, 0⟩) := by
  simp only [execFetchDispatch, String.reduceEq, reduceIte, fetchall, stExec]
  rw [mapMEx_pySub0_tuples rs hne]

/-- Dispatch evaluation for a quantity outside the recognised set. -/
theorem dispatch_wrong (st : DBState) (fetch : String) (ftl : Bool)
    (h1 : fetch ≠ "all") (h2 : fetch ≠ "one") (h3 : fetch ≠ "single")
    (h4 : fetch ≠ "list") :
    execFetchDispatch st fetch ftl = (.error .valueErrorWrongFetch, st) := by
  simp [execFetchDispatch, h1, h2, h3, h4]

/-- The post-close coercion is the identity when fetch_type is tuple. -/
theorem execCoerce_tuple (v : PyVal) (fetch : String) :
    execCoerce v fetch "tuple" = .ok v := rfl

/-- Evaluation of the projecting tail when the dispatch succeeded:
the cursor is closed passing the commit flag (so a commit happens
exactly when the statement was classified mutating), the connection is
closed iff auto_connect, and the tuple fetch_type skips coercion. -/
theorem execFetchPhase_eval (q fetch : String) (rows R : List PyVal)
    (d : List String) (value : PyVal) (n : Nat) (ac : Bool)
    (hd : execFetchDispatch (stExec q rows d) fetch false =
      (.ok value, ⟨"postgresql", some true, some 0, [0], 1, R, d, [q], n, 0⟩)) :
    execFetchPhase (stExec q rows d) q fetch ac "tuple" =
      (.ok (some value),
        ⟨"postgresql", some (!ac), some 0, [], 1, R, d, [q], n,
          if classifyCommit q then 1 else 0⟩) := by
  unfold execFetchPhase
  rw [show fetchTitleOf "tuple" = false from rfl, hd]
  simp [close_eval, execCoerce_tuple, resolveFetchType]

/-- Evaluation of the projecting tail on an unknown fetch quantity:
the error propagates and no cleanup happens. -/
theorem execFetchPhase_wrong (q fetch : String) (rows : List PyVal)
    (d : List String) (ac : Bool)
    (h1 : fetch ≠ "all") (h2 : fetch ≠ "one") (h3 : fetch ≠ "single")
    (h4 : fetch ≠ "list") :
    execFetchPhase (stExec q rows d) q fetch ac "tuple" =
      (.error .valueErrorWrongFetch, stExec q rows d) := by
  unfold execFetchPhase
  rw [show fetchTitleOf "tuple" = false from rfl,
    dispatch_wrong (stExec q rows d) fetch false h1 h2 h3 h4]

/-- Evaluation of the mutating tail: commit per the classification
flag, cursor closed, connection closed iff auto_connect, no value. -/
theorem execCommitPhase_eval (q : String) (rows : List PyVal)
    (d : List String) (ac : Bool) :
    execCommitPhase (stExec q rows d) q ac =
      (.ok Option.none,
        ⟨"postgresql", some (!ac), some 0, [], 1, rows, d, [q], 0,
          if classifyCommit q then 1 else 0⟩) := by
  unfold execCommitPhase
  rw [show stExec q rows d =
    (⟨"postgresql", some true, some 0, [0], 1, rows, d, [q], 0, 0⟩ : DBState) from rfl,
    close_eval]
  simp

/-- Claim C9: a run with a projecting statement and a fetch quantity
outside the recognised set raises the wrong-quantity error only after
the cursor has been opened and the statement executed, and neither the
cursor nor the connection is closed on that path: the session is left
open and loaded, so the failure is not atomic. -/
theorem exec_wrong_quantity_not_atomic (query fetch : String) (p : Option PyVal)
    (rows : List PyVal) (d : List String)
    (hq : classifyCommit query = false)
    (h1 : fetch ≠ "all") (h2 : fetch ≠ "one") (h3 : fetch ≠ "single")
    (h4 : fetch ≠ "list") :
    (exec ready0 query p fetch true "tuple" false rows d).1 =
      .error .valueErrorWrongFetch ∧
    (exec ready0 query p fetch true "tuple" false rows d).2.cursor = some 0 ∧
    (exec ready0 query p fetch true "tuple" false rows d).2.openCursors = [0] ∧
    (exec ready0 query p fetch true "tuple" false rows d).2.db = some true ∧
    (exec ready0 query p fetch true "tuple" false rows d).2.executed = [query] ∧
    (exec ready0 query p fetch true "tuple" false rows d).2.fetches = 0 ∧
    (exec ready0 query p fetch true "tuple" false rows d).2.commits = 0 := by
  have hcond : (!(classifyCommit query) || containsInUpper query "RETURNING")
      = true := by
    rw [hq]
    rfl
  rw [exec_eval, hcond, if_pos rfl,
    execFetchPhase_wrong query fetch rows d true h1 h2 h3 h4]
  exact ⟨rfl, rfl, rfl, rfl, rfl, rfl, rfl⟩

/-- Claim C9 witness at a concrete projecting statement and quantity. -/
theorem exec_wrong_quantity_witness :
    classifyCommit "SELECT a FROM t" = false ∧
    ("many" : String) ≠ "all" ∧ ("many" : String) ≠ "one" ∧
    ("many" : String) ≠ "single" ∧ ("many" : String) ≠ "list" ∧
    ((exec ready0 "SELECT a FROM t" Option.none "many" true "tuple" false
        [ptuple [pint 1]] ["a"]).1 = .error .valueErrorWrongFetch ∧
     (exec ready0 "SELECT a FROM t" Option.none "many" true "tuple" false
        [ptuple [pint 1]] ["a"]).2.cursor = some 0 ∧
     (exec ready0 "SELECT a FROM t" Option.none "many" true "tuple" false
        [ptuple [pint 1]] ["a"]).2.openCursors = [0] ∧
     (exec ready0 "SELECT a FROM t" Option.none "many" true "tuple" false
        [ptuple [pint 1]] ["a"]).2.db = some true ∧
     (exec ready0 "SELECT a FROM t" Option.none "many" true "tuple" false
        [ptuple [pint 1]] ["a"]).2.executed = ["SELECT a FROM t"] ∧
     (exec ready0 "SELECT a FROM t" Option.none "many" true "tuple" false
        [ptuple [pint 1]] ["a"]).2.fetches = 0 ∧
     (exec ready0 "SELECT a FROM t" Option.none "many" true "tuple" false
        [ptuple [pint 1]] ["a"]).2.commits = 0) :=
  ⟨rfl, by decide, by decide, by decide, by decide,
    exec_wrong_quantity_not_atomic "SELECT a FROM t" "many" Option.none
      [ptuple [pint 1]] ["a"] rfl (by decide) (by decide) (by decide) (by decide)⟩

/-- Claim C7: a run with quantity list over fetched rows that are all
non-empty returns one flat sequence, of length equal to the number of
rows fetched, whose i-th element is the first field of the i-th row. -/
theorem exec_list_flat (query : String) (p : Option PyVal)
    (rs : List (List PyVal)) (d : List String)
    (hq : classifyCommit query = false)
    (hne : ∀ r ∈ rs, r ≠ []) :
    (exec ready0 query p "list" true "tuple" false (rs.map ptuple) d).1 =
      .ok (some (plist (rs.map List.headI))) ∧
    (rs.map List.headI).length = rs.length ∧
    (∀ i, i < rs.length →
      (rs.map List.headI).getD i pnone = (rs.getD i []).headI) := by
  have hcond : (!(classifyCommit query) || containsInUpper query "RETURNING")
      = true := by
    rw [hq]
    rfl
  have hd := dispatch_list query rs d (fun r hr => hne r hr)
  rw [exec_eval, hcond, if_pos rfl,
    execFetchPhase_eval query "list" (rs.map ptuple) [] d
      (plist (rs.map List.headI)) 1 true hd]
  refine ⟨rfl, List.length_map _ _, ?_⟩
  intro i hi
  rw [List.getD_eq_getElem?_getD, List.getD_eq_getElem?_getD, List.getElem?_map]
  cases h : rs[i]? with
  | none =>
    rw [List.getElem?_eq_none_iff] at h
    omega
  | some r => simp

/-- Claim C7 witness at two concrete non-empty rows. -/
theorem exec_list_flat_witness :
    classifyCommit "SELECT a FROM t" = false ∧
    (∀ r ∈ [[pint 1, pint 9], [pint 2]], r ≠ ([] : List PyVal)) ∧
    (exec ready0 "SELECT a FROM t" Option.none "list" true "tuple" false
      ([[pint 1, pint 9], [pint 2]].map ptuple) ["a"]).1 =
      .ok (some (plist ([[pint 1, pint 9], [pint 2]].map List.headI))) :=
  ⟨rfl, by simp,
    (exec_list_flat "SELECT a FROM t" Option.none [[pint 1, pint 9], [pint 2]]
      ["a"] rfl (by simp)).1⟩

/-- Master evaluation of a run that is treated as projecting (the
fetch branch is taken): for every recognised quantity over non-empty
tuple rows the run succeeds with some value, performs at least one
driver fetch, leaves no open cursor, commits exactly when the
statement was classified mutating, and disconnects iff auto_connect. -/
theorem exec_fetchpath_eval (query fetch : String) (rs : List (List PyVal))
    (d : List String) (ac : Bool)
    (hcond : (!(classifyCommit query) || containsInUpper query "RETURNING")
      = true)
    (hf : fetch = "all" ∨ fetch = "one" ∨ fetch = "single" ∨ fetch = "list")
    (hne : ∀ r ∈ rs, r ≠ []) :
    ∃ v n, 0 < n ∧
      exec ready0 query Option.none fetch ac "tuple" false (rs.map ptuple) d =
        (.ok (some v),
          ⟨"postgresql", some (!ac), some 0, [], 1, [], d, [query], n,
            if classifyCommit query then 1 else 0⟩) := by
  obtain rfl | rfl | rfl | rfl := hf
  · refine ⟨plist (rs.map ptuple), 1, Nat.one_pos, ?_⟩
    rw [exec_eval, hcond, if_pos rfl,
      execFetchPhase_eval query "all" (rs.map ptuple) [] d _ 1 ac
        (dispatch_all query (rs.map ptuple) d)]
  · cases rs with
    | nil =>
      refine ⟨pnone, 2, by omega, ?_⟩
      rw [exec_eval, hcond, if_pos rfl]
      rw [show (([] : List (List PyVal)).map ptuple) = ([] : List PyVal) from rfl]
      rw [execFetchPhase_eval query "one" [] [] d pnone 2 ac
        (dispatch_one_nil query d)]
    | cons r rest =>
      refine ⟨ptuple r, 2, by omega, ?_⟩
      rw [exec_eval, hcond, if_pos rfl, List.map_cons]
      rw [execFetchPhase_eval query "one" (ptuple r :: rest.map ptuple) [] d
        (ptuple r) 2 ac (dispatch_one_cons query (ptuple r) (rest.map ptuple) d)]
  · cases rs with
    | nil =>
      refine ⟨pnone, 2, by omega, ?_⟩
      rw [exec_eval, hcond, if_pos rfl]
      rw [show (([] : List (List PyVal)).map ptuple) = ([] : List PyVal) from rfl]
      rw [execFetchPhase_eval query "single" [] [] d pnone 2 ac
        (dispatch_single_nil query d)]
    | cons r rest =>
      obtain ⟨a, t, rfl⟩ :=
        List.exists_cons_of_ne_nil (hne r (List.mem_cons_self r rest))
      refine ⟨a, 2, by omega, ?_⟩
      rw [exec_eval, hcond, if_pos rfl, List.map_cons]
      rw [execFetchPhase_eval query "single"
        (ptuple (a :: t) :: rest.map ptuple) [] d a 2 ac
        (dispatch_single_cons query a t (rest.map ptuple) d)]
  · refine ⟨plist (rs.map List.headI), 1, Nat.one_pos, ?_⟩
    rw [exec_eval, hcond, if_pos rfl,
      execFetchPhase_eval query "list" (rs.map ptuple) [] d _ 1 ac
        (dispatch_list query rs d hne)]

/-- Claim C1: a statement is classified mutating exactly when the
uppercased first 20 characters contain neither SELECT nor SHOW, and a
run over a recognised quantity performs a driver fetch exactly when
the statement is classified projecting or its full uppercased text
contains RETURNING; the commit at close happens exactly when the
statement was classified mutating. -/
theorem exec_classification (query fetch : String) (rs : List (List PyVal))
    (d : List String)
    (hf : fetch = "all" ∨ fetch = "one" ∨ fetch = "single" ∨ fetch = "list")
    (hne : ∀ r ∈ rs, r ≠ []) :
    (classifyCommit query =
      (!(listContains "SELECT".toList ((pyUpper query).take 20)) &&
       !(listContains "SHOW".toList ((pyUpper query).take 20)))) ∧
    ((exec ready0 query Option.none fetch true "tuple" false
        (rs.map ptuple) d).2.fetches > 0 ↔
      (classifyCommit query = false ∨
        containsInUpper query "RETURNING" = true)) ∧
    ((exec ready0 query Option.none fetch true "tuple" false
        (rs.map ptuple) d).2.commits > 0 ↔
      classifyCommit query = true) := by
  refine ⟨rfl, ?_⟩
  cases hc : classifyCommit query with
  | false =>
    have hcond : (!(classifyCommit query) || containsInUpper query "RETURNING")
        = true := by
      rw [hc]
      rfl
    obtain ⟨v, n, hn, he⟩ := exec_fetchpath_eval query fetch rs d true hcond hf hne
    rw [he]
    constructor
    · exact Iff.intro (fun _ => Or.inl rfl) (fun _ => hn)
    · simp [hc]
  | true =>
    cases hr : containsInUpper query "RETURNING" with
    | true =>
      have hcond : (!(classifyCommit query) ||
          containsInUpper query "RETURNING") = true := by
        rw [hc, hr]
        rfl
      obtain ⟨v, n, hn, he⟩ := exec_fetchpath_eval query fetch rs d true hcond hf hne
      rw [he]
      constructor
      · exact Iff.intro (fun _ => Or.inr rfl) (fun _ => hn)
      · simp [hc]
    | false =>
      have hcond : (!(classifyCommit query) ||
          containsInUpper query "RETURNING") = false := by
        rw [hc, hr]
        rfl
      rw [exec_eval, hcond, if_neg Bool.false_ne_true,
        execCommitPhase_eval query (rs.map ptuple) d true]
      constructor
      · simp [hc, hr]
      · simp [hc]

/-- Claim C1 witness at a mutating statement and quantity all. -/
theorem exec_classification_witness :
    (("all" : String) = "all" ∨ ("all" : String) = "one" ∨
      ("all" : String) = "single" ∨ ("all" : String) = "list") ∧
    (∀ r ∈ ([[pint 1]] : List (List PyVal)), r ≠ []) ∧
    ((exec ready0 "UPDATE t SET x=1" Option.none "all" true "tuple" false
        ([[pint 1]].map ptuple) ["a"]).2.commits > 0 ↔
      classifyCommit "UPDATE t SET x=1" = true) :=
  ⟨Or.inl rfl, by simp,
    (exec_classification "UPDATE t SET x=1" "all" [[pint 1]] ["a"]
      (Or.inl rfl) (by simp)).2.2⟩

/-- Claim C5 counterexample: a mutating-classified statement whose
text contains RETURNING is treated as projecting (two driver fetches
happen), yet the cursor is closed with commit true: the driver commit
is performed once, contradicting the claimed commit-false close. -/
theorem exec_returning_commit_counterexample :
    classifyCommit "INSERT INTO t(a) VALUES(1) RETURNING id" = true ∧
    (exec ready0 "INSERT INTO t(a) VALUES(1) RETURNING id" Option.none "one"
      true "tuple" false [ptuple [pint 7]] ["id"]).2.fetches = 2 ∧
    (exec ready0 "INSERT INTO t(a) VALUES(1) RETURNING id" Option.none "one"
      true "tuple" false [ptuple [pint 7]] ["id"]).2.commits = 1 :=
  ⟨rfl, rfl, rfl⟩

/-- Claim C5 as amended: for every run treated as projecting over a
recognised quantity and non-empty tuple rows, after fetching and
normalizing the cursor is closed passing the mutating-classification
flag as the commit argument (so commit=false exactly when the
first-20-character test classified the statement projecting, and
commit=true when RETURNING forced the fetch), and the connection is
disconnected if and only if auto_connect is set. -/
theorem exec_projecting_close (query fetch : String) (ac : Bool)
    (rs : List (List PyVal)) (d : List String)
    (hf : fetch = "all" ∨ fetch = "one" ∨ fetch = "single" ∨ fetch = "list")
    (hne : ∀ r ∈ rs, r ≠ [])
    (hp : (!(classifyCommit query) || containsInUpper query "RETURNING")
      = true) :
    (∃ v, (exec ready0 query Option.none fetch ac "tuple" false
      (rs.map ptuple) d).1 = .ok (some v)) ∧
    (exec ready0 query Option.none fetch ac "tuple" false
      (rs.map ptuple) d).2.fetches > 0 ∧
    (exec ready0 query Option.none fetch ac "tuple" false
      (rs.map ptuple) d).2.openCursors = [] ∧
    (exec ready0 query Option.none fetch ac "tuple" false
      (rs.map ptuple) d).2.commits =
      (if classifyCommit query then 1 else 0) ∧
    (exec ready0 query Option.none fetch ac "tuple" false
      (rs.map ptuple) d).2.db = some (!ac) := by
  obtain ⟨v, n, hn, he⟩ := exec_fetchpath_eval query fetch rs d ac hp hf hne
  rw [he]
  exact ⟨⟨v, rfl⟩, hn, rfl, rfl, rfl⟩

/-- Claim C5 witness at a projecting statement with quantity one. -/
theorem exec_projecting_close_witness :
    (("one" : String) = "all" ∨ ("one" : String) = "one" ∨
      ("one" : String) = "single" ∨ ("one" : String) = "list") ∧
    (∀ r ∈ ([[pint 7]] : List (List PyVal)), r ≠ []) ∧
    ((!(classifyCommit "SELECT a FROM t") ||
      containsInUpper "SELECT a FROM t" "RETURNING") = true) ∧
    ((exec ready0 "SELECT a FROM t" Option.none "one" true "tuple" false
        ([[pint 7]].map ptuple) ["a"]).2.openCursors = [] ∧
     (exec ready0 "SELECT a FROM t" Option.none "one" true "tuple" false
        ([[pint 7]].map ptuple) ["a"]).2.commits =
        (if classifyCommit "SELECT a FROM t" then 1 else 0) ∧
     (exec ready0 "SELECT a FROM t" Option.none "one" true "tuple" false
        ([[pint 7]].map ptuple) ["a"]).2.db = some (!true)) :=
  ⟨Or.inr (Or.inl rfl), by simp, rfl,
    ⟨(exec_projecting_close "SELECT a FROM t" "one" true [[pint 7]] ["a"]
        (Or.inr (Or.inl rfl)) (by simp) rfl).2.2.1,
      (exec_projecting_close "SELECT a FROM t" "one" true [[pint 7]] ["a"]
        (Or.inr (Or.inl rfl)) (by simp) rfl).2.2.2.1,
      (exec_projecting_close "SELECT a FROM t" "one" true [[pint 7]] ["a"]
        (Or.inr (Or.inl rfl)) (by simp) rfl).2.2.2.2⟩⟩

/-- Claim C8: every session holds at most one open native cursor.
From any state satisfying the single-cursor invariant, every operation
of the handle preserves it (exec included on all its paths); the
open-cursor operation is the only one that creates a cursor: on
success its open-cursor set is exactly the freshly created cursor,
any pre-existing one having been best-effort closed first, while every
other operation leaves the open-cursor set unchanged except close,
which can only shrink it. -/
theorem single_cursor_invariant (st : DBState) (h : CursorInv st)
    (ac ac2 cb im : Bool) (ft q fe : String) (p : Option PyVal)
    (rows : List PyVal) (d : List String) :
    CursorInv (connect st).2 ∧
    CursorInv (disconnect st).2 ∧
    CursorInv (openCur st ac ft).2 ∧
    CursorInv (close st cb ac2).2 ∧
    CursorInv (execute st q p rows d).2 ∧
    CursorInv (executemany st q p rows d).2 ∧
    CursorInv (commitOp st).2 ∧
    CursorInv (fetchall st).2 ∧
    CursorInv (fetchone st).2 ∧
    CursorInv (exec st q p fe ac ft im rows d).2 ∧
    ((openCur st ac ft).1 = .ok true →
      (openCur st ac ft).2.openCursors = [st.nextId] ∧
      (openCur st ac ft).2.cursor = some st.nextId) ∧
    (connect st).2.openCursors = st.openCursors ∧
    (disconnect st).2.openCursors = st.openCursors ∧
    (execute st q p rows d).2.openCursors = st.openCursors ∧
    (executemany st q p rows d).2.openCursors = st.openCursors ∧
    (commitOp st).2.openCursors = st.openCursors ∧
    (fetchall st).2.openCursors = st.openCursors ∧
    (fetchone st).2.openCursors = st.openCursors ∧
    (close st cb ac2).2.openCursors.length ≤ st.openCursors.length :=
  ⟨cursorInv_of_fields h (connect_fields st).1 (connect_fields st).2,
    cursorInv_of_fields h (disconnect_fields st).1 (disconnect_fields st).2,
    (openCur_state st h ac ft).1,
    cursorInv_close st h cb ac2,
    cursorInv_of_fields h (execute_fields st q p rows d).1
      (execute_fields st q p rows d).2,
    cursorInv_of_fields h (executemany_fields st q p rows d).1
      (executemany_fields st q p rows d).2,
    cursorInv_of_fields h (commitOp_fields st).1 (commitOp_fields st).2,
    cursorInv_of_fields h (fetchall_fields st).1 (fetchall_fields st).2,
    cursorInv_of_fields h (fetchone_fields st).1 (fetchone_fields st).2,
    cursorInv_exec st h q p fe ac ft im rows d,
    (openCur_state st h ac ft).2,
    (connect_fields st).1,
    (disconnect_fields st).1,
    (execute_fields st q p rows d).1,
    (executemany_fields st q p rows d).1,
    (commitOp_fields st).1,
    (fetchall_fields st).1,
    (fetchone_fields st).1,
    close_shrinks st cb ac2⟩

/-- Claim C8 witness at the connected ready state. -/
theorem single_cursor_invariant_witness :
    CursorInv ready0 ∧
    CursorInv (exec ready0 "SELECT 1" Option.none "all" true "tuple" false
      [] []).2 ∧
    CursorInv (openCur ready0 true "tuple").2 :=
  ⟨Or.inl rfl,
    (single_cursor_invariant ready0 (Or.inl rfl) true true true false "tuple"
      "SELECT 1" "all" Option.none [] []).2.2.2.2.2.2.2.2.2.1,
    (single_cursor_invariant ready0 (Or.inl rfl) true true true false "tuple"
      "SELECT 1" "all" Option.none [] []).2.2.1⟩

end DB
